import Mathlib

/-!
Verification of the comprehension-scoring core of Vani-Vision.

This file gives a shallow embedding of `src/understanding_meter.py`
(the `UnderstandingMeter` class: heuristic regex scoring, optional
LLM-backed scoring with fallback, score clamping, streak tracking,
badge mapping) and of the mode-escalation logic of
`src/socratic_prompt.py` (`build_system_prompt`), with the constants of
`src/config.py`, and proves the specified properties about them.

The regular expressions of `UnderstandingMeter.POSITIVE_SIGNALS` /
`NEGATIVE_SIGNALS` are embedded as executable matchers over lists of
characters: each Python pattern is translated token by token
(literal alternatives guarded by `\b` word boundaries, `\s*` gaps,
`\d+` digit runs, `$` end anchors), and `re.search` truthiness becomes
a search over every start position.  `str.lower` is modelled by the
ASCII `Char.toLower` (all signal patterns are ASCII).
-/

namespace VaniVision

/-- constants of `src/config.py` (Understanding Meter / Socratic Engine). -/
def METER_INITIAL_SCORE : Int := 30

/-- config.METER_STEP_CORRECT: added when the student answers correctly. -/
def METER_STEP_CORRECT : Int := 15

/-- config.METER_STEP_PARTIAL: added for partial understanding. -/
def METER_STEP_PARTIAL : Int := 7

/-- config.METER_STEP_INCORRECT: deducted for wrong answers. -/
def METER_STEP_INCORRECT : Int := -5

/-- config.HINT_THRESHOLD: wrong answers before giving a direct hint. -/
def HINT_THRESHOLD : Int := 2

/-- word characters for the regex `\b` boundary (Python `\w`, ASCII range). -/
def isWordChar (c : Char) : Bool :=
  (('a' ≤ c && c ≤ 'z') || ('A' ≤ c && c ≤ 'Z') || ('0' ≤ c && c ≤ '9') || c == '_')

/-- whitespace for the regex `\s` class (ASCII range of Python `\s`). -/
def isSpaceChar (c : Char) : Bool :=
  (c == ' ' || c == '\t' || c == '\n' || c == '\r' || c == Char.ofNat 11 || c == Char.ofNat 12)

/-- digits for the regex `\d` class. -/
def isDigitChar (c : Char) : Bool := '0' ≤ c && c ≤ '9'

/-- the apostrophe character, as used in the `don'?t` patterns. -/
def apos : Char := Char.ofNat 39

/-- one token of an embedded regex alternative: a literal character or a
`\s*` gap. -/
inductive RTok where
  | lit (c : Char)
  | wsStar
  deriving DecidableEq

/-- match a token list at the head of `s`, returning the remainder.  A
`\s*` gap greedily skips whitespace: in every embedded pattern the token
after a gap is a non-space literal, so greedy skipping is complete. -/
def matchToks : List RTok → List Char → Option (List Char)
  | [], s => some s
  | RTok.lit a :: ts, c :: s => if a == c then matchToks ts s else none
  | RTok.lit _ :: _, [] => none
  | RTok.wsStar :: ts, s => matchToks ts (s.dropWhile isSpaceChar)

/-- does an alternative match at the head of `s` with a word boundary
(`\b`) after it?  All embedded alternatives end in a word character, so
the trailing `\b` holds iff the next character is absent or non-word. -/
def matchesAt (toks : List RTok) (s : List Char) : Bool :=
  match matchToks toks s with
  | some [] => true
  | some (c :: _) => !(isWordChar c)
  | none => false

/-- left `\b` boundary given the character just before the match position
(`none` at the start of the text).  All embedded alternatives begin with
a word character, so the boundary holds iff that character is absent or
non-word. -/
def boundaryL : Option Char → Bool
  | none => true
  | some c => !(isWordChar c)

/-- search `\b(alt1|alt2|...)\b` over every position of the text,
tracking the previous character for the left boundary. -/
def boundedSearchAux (alts : List (List RTok)) (prev : Option Char) : List Char → Bool
  | [] => boundaryL prev && alts.any (fun a => matchesAt a [])
  | c :: rest =>
      (boundaryL prev && alts.any (fun a => matchesAt a (c :: rest)))
      || boundedSearchAux alts (some c) rest

/-- truthiness of `re.search` for a `\b(...)\b` pattern. -/
def boundedSearch (alts : List (List RTok)) (s : List Char) : Bool :=
  boundedSearchAux alts none s

/-- a purely literal alternative. -/
def litToks (s : String) : List RTok := s.toList.map RTok.lit

/-- pattern 1 of `POSITIVE_SIGNALS`:
`\b(yes|correct|exactly|right|understand|got it|i see|makes sense)\b`. -/
def posAlts1 : List (List RTok) :=
  [litToks "yes", litToks "correct", litToks "exactly", litToks "right",
   litToks "understand", litToks "got it", litToks "i see", litToks "makes sense"]

/-- pattern 2 of `POSITIVE_SIGNALS`:
`\b(the formula|newton|f\s*=\s*ma|mass|acceleration|force)\b`. -/
def posAlts2 : List (List RTok) :=
  [litToks "the formula", litToks "newton",
   [RTok.lit 'f', RTok.wsStar, RTok.lit '=', RTok.wsStar, RTok.lit 'm', RTok.lit 'a'],
   litToks "mass", litToks "acceleration", litToks "force"]

/-- pattern 3 of `POSITIVE_SIGNALS`:
`\b(substitute|plug in|calculate|equals|result)\b`. -/
def posAlts3 : List (List RTok) :=
  [litToks "substitute", litToks "plug in", litToks "calculate",
   litToks "equals", litToks "result"]

/-- unit alternatives of pattern 4 of `POSITIVE_SIGNALS`:
`(m/s|kg|n|j|w|pa|k)`. -/
def unitAlts : List (List Char) :=
  ["m/s", "kg", "n", "j", "w", "pa", "k"].map String.toList

/-- is `u` a literal prefix of `s`? -/
def listPre : List Char → List Char → Bool
  | [], _ => true
  | _ :: _, [] => false
  | a :: u, c :: s => a == c && listPre u s

/-- does `\d+\s*(m/s|kg|n|j|w|pa|k)` match at the head of `s`?  Greedily
skipping the digit run and the whitespace run is complete because the
search below tries every start position and no unit begins with a digit
or a space. -/
def digitUnitAt : List Char → Bool
  | [] => false
  | c :: rest =>
      isDigitChar c &&
      unitAlts.any (fun u => listPre u ((rest.dropWhile isDigitChar).dropWhile isSpaceChar))

/-- truthiness of `re.search` for pattern 4 of `POSITIVE_SIGNALS`:
`\d+\s*(m/s|kg|n|j|w|pa|k)` (no boundaries, no anchors). -/
def searchUnits : List Char → Bool
  | [] => false
  | c :: rest => digitUnitAt (c :: rest) || searchUnits rest

/-- alternatives of pattern 1 of `NEGATIVE_SIGNALS`, the optional
apostrophe of `don'?t` expanded:
`\b(don'?t know|not sure|confused|no idea|don'?t understand|i give up)\b`. -/
def negAlts1 : List (List RTok) :=
  [litToks "dont know", litToks "don" ++ [RTok.lit apos] ++ litToks "t know",
   litToks "not sure", litToks "confused", litToks "no idea",
   litToks "dont understand", litToks "don" ++ [RTok.lit apos] ++ litToks "t understand",
   litToks "i give up"]

/-- the question words of pattern 2 of `NEGATIVE_SIGNALS`. -/
def qWords : List (List Char) := ["what", "why", "how"].map String.toList

/-- drop a literal prefix, returning the remainder. -/
def dropLit : List Char → List Char → Option (List Char)
  | [], s => some s
  | _ :: _, [] => none
  | a :: w, c :: s => if a == c then dropLit w s else none

/-- does `(what|why|how)\?$` match at the head of `s`?  Python `$` (no
MULTILINE) matches at the end of the text or just before a final
newline. -/
def qEndAt (s : List Char) : Bool :=
  qWords.any (fun w =>
    match dropLit w s with
    | some (c :: rest) => c == '?' && (rest.isEmpty || rest == ['\n'])
    | _ => false)

/-- search for pattern 2 of `NEGATIVE_SIGNALS`: `\b(what|why|how)\?$`. -/
def searchQEndAux (prev : Option Char) : List Char → Bool
  | [] => false
  | c :: rest => (boundaryL prev && qEndAt (c :: rest)) || searchQEndAux (some c) rest

/-- truthiness of `re.search` for `\b(what|why|how)\?$`. -/
def searchQEnd (s : List Char) : Bool := searchQEndAux none s

/-- truthiness of `re.search` for pattern 3 of `NEGATIVE_SIGNALS`:
`^\s*\?+\s*$` — the whole text is whitespace, then one or more question
marks, then whitespace (a trailing newline is inside the final `\s*`). -/
def onlyQs (s : List Char) : Bool :=
  match s.dropWhile isSpaceChar with
  | [] => false
  | c :: rest =>
      c == '?' && ((rest.dropWhile (fun d => d == '?')).dropWhile isSpaceChar).isEmpty

/-- the list `UnderstandingMeter.POSITIVE_SIGNALS` as executable matchers, in
source order. -/
def POSITIVE_MATCHERS : List (List Char → Bool) :=
  [boundedSearch posAlts1, boundedSearch posAlts2, boundedSearch posAlts3, searchUnits]

/-- the list `UnderstandingMeter.NEGATIVE_SIGNALS` as executable matchers, in
source order. -/
def NEGATIVE_MATCHERS : List (List Char → Bool) :=
  [boundedSearch negAlts1, searchQEnd, onlyQs]

/-- the count `sum(1 for pattern in SIGNALS if re.search(pattern, text))`. -/
def countHits (ms : List (List Char → Bool)) (t : List Char) : Nat :=
  ms.countP (fun m => m t)

/-- the text `student_reply.lower()` as a character list (ASCII lowering). -/
def lowerChars (s : String) : List Char := s.toList.map Char.toLower

/-- the verdict branch of `_heuristic_score` (its final `if` chain) as a
function of the two match counts. -/
def heuristic_verdict (pos_hits neg_hits : Nat) : String × Int :=
  if 2 ≤ pos_hits ∧ neg_hits = 0 then ("correct", METER_STEP_CORRECT)
  else if 1 ≤ pos_hits ∨ neg_hits = 0 then ("partial", METER_STEP_PARTIAL)
  else ("incorrect", METER_STEP_INCORRECT)

/-- the method `UnderstandingMeter._heuristic_score`: returns (verdict, delta). -/
def heuristic_score (student_reply : String) : String × Int :=
  heuristic_verdict (countHits POSITIVE_MATCHERS (lowerChars student_reply))
    (countHits NEGATIVE_MATCHERS (lowerChars student_reply))

/-- one entry of `UnderstandingMeter.history`, the dict built by
`UnderstandingMeter.update`. -/
structure TurnRecord where
  turn : Int
  score : Int
  delta : Int
  verdict : String
  badge : String
  deriving DecidableEq

/-- the session state of the `UnderstandingMeter` class (Python ints are
modelled as `Int`; non-negativity of counters is proved, not assumed). -/
structure UnderstandingMeter where
  score : Int
  turn_count : Int
  wrong_streak : Int
  history : List TurnRecord
  deriving DecidableEq

/-- the constructor `UnderstandingMeter.__init__` (score starts at
`config.METER_INITIAL_SCORE`). -/
def initMeter : UnderstandingMeter :=
  { score := METER_INITIAL_SCORE, turn_count := 0, wrong_streak := 0, history := [] }

/-- the method `UnderstandingMeter._badge`. -/
def badge (score : Int) : String :=
  if 85 ≤ score then "Expert"
  else if 65 ≤ score then "Proficient"
  else if 45 ≤ score then "Developing"
  else if 25 ≤ score then "Beginner"
  else "Needs Help"

/-- outcome of the external steps of `UnderstandingMeter._llm_score`
(`llm_engine.generate`, `json.loads`, `data.get`, `int`), which are
outside this repository's core:
* `generateError`: `llm_engine.generate` raised (e.g. backend failure);
* `jsonError`: `json.loads` raised on the raw reply (malformed JSON);
* `missingScore`: the parsed object has no `"score"` key, so
  `data.get("score", 50)` returns the default `50` (no exception);
* `scoreNotInt`: `int(...)` raised on the `"score"` value;
* `score n`: `int(data.get("score", 50))` returned `n`. -/
inductive LlmOutcome where
  | generateError
  | jsonError
  | missingScore
  | scoreNotInt
  | score (n : Int)
  deriving DecidableEq

/-- the verdict thresholds of `_llm_score` applied to a parsed score. -/
def llm_verdict_of (score_val : Int) : String × Int :=
  if 70 ≤ score_val then ("correct", METER_STEP_CORRECT)
  else if 40 ≤ score_val then ("partial", METER_STEP_PARTIAL)
  else ("incorrect", METER_STEP_INCORRECT)

/-- the method `UnderstandingMeter._llm_score`: the `try` body threshold logic on
success, and the `except Exception` handler falling back to
`_heuristic_score` on any raised exception. -/
def llm_score (student_reply : String) (outcome : LlmOutcome) : String × Int :=
  match outcome with
  | LlmOutcome.generateError => heuristic_score student_reply
  | LlmOutcome.jsonError => heuristic_score student_reply
  | LlmOutcome.scoreNotInt => heuristic_score student_reply
  | LlmOutcome.missingScore => llm_verdict_of 50
  | LlmOutcome.score n => llm_verdict_of n

/-- the `(verdict, delta)` pair `update` computes: the `use_llm` branch
of `UnderstandingMeter.update`. -/
def update_verdict (student_reply : String) (use_llm : Bool) (llm : LlmOutcome) :
    String × Int :=
  if use_llm then llm_score student_reply llm else heuristic_score student_reply

/-- the clamp `max(0, min(100, x))` of `UnderstandingMeter.update`. -/
def clampScore (x : Int) : Int := max 0 (min 100 x)

/-- the streak step of `UnderstandingMeter.update`: `+ 1` on an
"incorrect" verdict, reset to `0` otherwise. -/
def nextStreak (streak : Int) (verdict : String) : Int :=
  if verdict = "incorrect" then streak + 1 else 0

/-- the record dict `UnderstandingMeter.update` builds, appends to
`history` and returns. -/
def updateRecord (m : UnderstandingMeter) (student_reply : String)
    (use_llm : Bool) (llm : LlmOutcome) : TurnRecord :=
  { turn := m.turn_count + 1,
    score := clampScore (m.score + (update_verdict student_reply use_llm llm).2),
    delta := (update_verdict student_reply use_llm llm).2,
    verdict := (update_verdict student_reply use_llm llm).1,
    badge := badge (clampScore (m.score + (update_verdict student_reply use_llm llm).2)) }

/-- the method `UnderstandingMeter.update`: returns the new state and the record it
both appends to `history` and returns.  The LLM outcome argument stands
for the environment of the optional `use_llm` path and is ignored when
`use_llm` is false. -/
def update (m : UnderstandingMeter) (student_reply : String)
    (use_llm : Bool) (llm : LlmOutcome) : UnderstandingMeter × TurnRecord :=
  ({ score := clampScore (m.score + (update_verdict student_reply use_llm llm).2),
     turn_count := m.turn_count + 1,
     wrong_streak := nextStreak m.wrong_streak (update_verdict student_reply use_llm llm).1,
     history := m.history ++ [updateRecord m student_reply use_llm llm] },
   updateRecord m student_reply use_llm llm)

/-- the method `UnderstandingMeter.reset`. -/
def reset (_m : UnderstandingMeter) : UnderstandingMeter := initMeter

/-- a whole session: one `update` call per input triple
(reply, use_llm, llm outcome). -/
def runUpdates (m : UnderstandingMeter) : List (String × Bool × LlmOutcome) → UnderstandingMeter
  | [] => m
  | (r, u, o) :: rest => runUpdates (update m r u o).1 rest

/-- the number of consecutive trailing records of a history whose
verdict is "incorrect". -/
def trailingIncorrect (hist : List TurnRecord) : Nat :=
  (hist.reverse.takeWhile (fun r => r.verdict == "incorrect")).length

/-- the hint-escalation logic of `socratic_prompt.build_system_prompt`
(its `mode` variable), with the wrong-answer threshold a parameter; the
source reads it from `config.HINT_THRESHOLD`. -/
def select_mode (understanding_score wrong_answer_count : Int)
    (emotion : String) (threshold : Int) : String :=
  if threshold ≤ wrong_answer_count ∨ emotion = "sad" ∨ emotion = "angry" ∨ emotion = "fear"
  then "hint"
  else if understanding_score < 30 then "scaffolded"
  else if understanding_score < 60 then "socratic"
  else "deep"

/-- the mode exactly as `build_system_prompt` computes it, with the
configured threshold. -/
def build_system_prompt_mode (understanding_score wrong_answer_count : Int)
    (emotion : String) : String :=
  select_mode understanding_score wrong_answer_count emotion HINT_THRESHOLD

/-- rank of a badge tier, worst (0) to best (4). -/
def badgeTier (b : String) : Nat :=
  if b = "Expert" then 4
  else if b = "Proficient" then 3
  else if b = "Developing" then 2
  else if b = "Beginner" then 1
  else 0

/-- the spec's first worked example reply. -/
def exampleReply1 : String := "Yes exactly! F = ma, mass is 5kg, acceleration 2 m/s²"

/-- the spec's second worked example reply,
`"I don't know, I'm confused"`. -/
def exampleReply2 : String :=
  "I don" ++ apos.toString ++ "t know, I" ++ apos.toString ++ "m confused"

/-- the method `_heuristic_score` returns one of the three verdict/step pairs. -/
theorem heuristic_score_shape (reply : String) :
    heuristic_score reply = ("correct", METER_STEP_CORRECT) ∨
    heuristic_score reply = ("partial", METER_STEP_PARTIAL) ∨
    heuristic_score reply = ("incorrect", METER_STEP_INCORRECT) := by
  unfold heuristic_score heuristic_verdict
  split_ifs <;> simp

/-- the thresholds `llm_verdict_of` return one of the three verdict/step pairs. -/
theorem llm_verdict_of_shape (n : Int) :
    llm_verdict_of n = ("correct", METER_STEP_CORRECT) ∨
    llm_verdict_of n = ("partial", METER_STEP_PARTIAL) ∨
    llm_verdict_of n = ("incorrect", METER_STEP_INCORRECT) := by
  unfold llm_verdict_of
  split_ifs <;> simp

/-- the method `_llm_score` returns one of the three verdict/step pairs. -/
theorem llm_score_shape (reply : String) (o : LlmOutcome) :
    llm_score reply o = ("correct", METER_STEP_CORRECT) ∨
    llm_score reply o = ("partial", METER_STEP_PARTIAL) ∨
    llm_score reply o = ("incorrect", METER_STEP_INCORRECT) := by
  cases o <;>
    first
      | exact heuristic_score_shape reply
      | exact llm_verdict_of_shape _

/-- the verdict/step pair used by `update`, whichever path is taken. -/
theorem update_verdict_shape (reply : String) (u : Bool) (o : LlmOutcome) :
    update_verdict reply u o = ("correct", METER_STEP_CORRECT) ∨
    update_verdict reply u o = ("partial", METER_STEP_PARTIAL) ∨
    update_verdict reply u o = ("incorrect", METER_STEP_INCORRECT) := by
  cases u with
  | false => exact heuristic_score_shape reply
  | true => exact llm_score_shape reply o

/-- the returned record is `updateRecord`, field by field. -/
theorem update_snd (m : UnderstandingMeter) (reply : String) (u : Bool) (o : LlmOutcome) :
    (update m reply u o).2 = updateRecord m reply u o := rfl

/-- the record's verdict and delta are the chosen path's pair. -/
theorem updateRecord_verdict_delta (m : UnderstandingMeter) (reply : String)
    (u : Bool) (o : LlmOutcome) :
    (updateRecord m reply u o).verdict = (update_verdict reply u o).1 ∧
    (updateRecord m reply u o).delta = (update_verdict reply u o).2 := ⟨rfl, rfl⟩

/-- the method `_badge` returns one of the five badge labels. -/
theorem badge_shape (s : Int) :
    badge s = "Expert" ∨ badge s = "Proficient" ∨ badge s = "Developing" ∨
    badge s = "Beginner" ∨ badge s = "Needs Help" := by
  unfold badge
  split_ifs <;> simp

/-- the tier of the badge of a score, as a single if-chain on the score. -/
theorem badgeTier_badge (s : Int) :
    badgeTier (badge s) =
      if 85 ≤ s then 4 else if 65 ≤ s then 3 else if 45 ≤ s then 2
      else if 25 ≤ s then 1 else 0 := by
  unfold badge badgeTier
  split_ifs <;> simp_all

/-- C1: for every student reply, `_heuristic_score` counts positive and
negative pattern matches over the lowercased reply and yields verdict
"correct" with delta `METER_STEP_CORRECT = 15` iff `pos ≥ 2` and
`neg = 0`; otherwise "partial" with `METER_STEP_PARTIAL = 7` iff
`pos ≥ 1` or `neg = 0`; otherwise "incorrect" with
`METER_STEP_INCORRECT = -5`. -/
theorem heuristic_verdict_rule (reply : String) :
    (heuristic_score reply = ("correct", METER_STEP_CORRECT) ↔
       2 ≤ countHits POSITIVE_MATCHERS (lowerChars reply) ∧
       countHits NEGATIVE_MATCHERS (lowerChars reply) = 0) ∧
    (heuristic_score reply = ("partial", METER_STEP_PARTIAL) ↔
       ¬(2 ≤ countHits POSITIVE_MATCHERS (lowerChars reply) ∧
         countHits NEGATIVE_MATCHERS (lowerChars reply) = 0) ∧
       (1 ≤ countHits POSITIVE_MATCHERS (lowerChars reply) ∨
        countHits NEGATIVE_MATCHERS (lowerChars reply) = 0)) ∧
    (heuristic_score reply = ("incorrect", METER_STEP_INCORRECT) ↔
       ¬(2 ≤ countHits POSITIVE_MATCHERS (lowerChars reply) ∧
         countHits NEGATIVE_MATCHERS (lowerChars reply) = 0) ∧
       ¬(1 ≤ countHits POSITIVE_MATCHERS (lowerChars reply) ∨
         countHits NEGATIVE_MATCHERS (lowerChars reply) = 0)) ∧
    METER_STEP_CORRECT = 15 ∧ METER_STEP_PARTIAL = 7 ∧ METER_STEP_INCORRECT = -5 := by
  refine ⟨?_, ?_, ?_, rfl, rfl, rfl⟩ <;>
    · unfold heuristic_score heuristic_verdict
      split_ifs <;> simp_all [METER_STEP_CORRECT, METER_STEP_PARTIAL, METER_STEP_INCORRECT]

/-- C2: the mode selector evaluates its rules in order — "hint" when
the wrong streak reaches the threshold or the emotion is sad, angry or
fear; else "scaffolded" when score < 30; else "socratic" when
score < 60; else "deep" — and on the spec's two example inputs yields
"hint" and "scaffolded". -/
theorem select_mode_rule (score streak threshold : Int) (emotion : String) :
    (select_mode score streak emotion threshold = "hint" ↔
       (threshold ≤ streak ∨ emotion = "sad" ∨ emotion = "angry" ∨ emotion = "fear")) ∧
    (select_mode score streak emotion threshold = "scaffolded" ↔
       ¬(threshold ≤ streak ∨ emotion = "sad" ∨ emotion = "angry" ∨ emotion = "fear") ∧
       score < 30) ∧
    (select_mode score streak emotion threshold = "socratic" ↔
       ¬(threshold ≤ streak ∨ emotion = "sad" ∨ emotion = "angry" ∨ emotion = "fear") ∧
       30 ≤ score ∧ score < 60) ∧
    (select_mode score streak emotion threshold = "deep" ↔
       ¬(threshold ≤ streak ∨ emotion = "sad" ∨ emotion = "angry" ∨ emotion = "fear") ∧
       60 ≤ score) ∧
    select_mode 70 3 "neutral" 2 = "hint" ∧
    select_mode 20 0 "neutral" 2 = "scaffolded" ∧
    build_system_prompt_mode 70 3 "neutral" = "hint" ∧
    HINT_THRESHOLD = 2 := by
  refine ⟨?_, ?_, ?_, ?_, by decide, by decide, by decide, rfl⟩ <;>
    · unfold select_mode
      split_ifs <;> simp_all <;> omega

/-- C7: badges come from the fixed thresholds (Expert ≥ 85,
Proficient ≥ 65, Developing ≥ 45, Beginner ≥ 25, else Needs Help) and
the mapping is monotone: a lower score in [0,100] never gets a strictly
better tier. -/
theorem badge_monotone :
    (∀ s : Int,
       (badge s = "Expert" ↔ 85 ≤ s) ∧
       (badge s = "Proficient" ↔ 65 ≤ s ∧ s < 85) ∧
       (badge s = "Developing" ↔ 45 ≤ s ∧ s < 65) ∧
       (badge s = "Beginner" ↔ 25 ≤ s ∧ s < 45) ∧
       (badge s = "Needs Help" ↔ s < 25)) ∧
    (∀ a b : Int, 0 ≤ a → a < b → b ≤ 100 →
       badgeTier (badge a) ≤ badgeTier (badge b)) ∧
    badgeTier (badge 44) < badgeTier (badge 45) := by
  refine ⟨?_, ?_, by decide⟩
  · intro s
    refine ⟨?_, ?_, ?_, ?_, ?_⟩ <;>
      · unfold badge
        split_ifs <;> simp_all <;> omega
  · intro a b _ hab _
    rw [badgeTier_badge, badgeTier_badge]
    split_ifs <;> omega

/-- C8: the heuristic scorer reproduces the spec's worked examples —
the reply "Yes exactly! F = ma, mass is 5kg, acceleration 2 m/s²" has
at least 2 positive matches, 0 negative matches and verdict "correct";
the reply "I don't know, I'm confused" has at least 1 negative match,
0 positive matches and verdict "incorrect". -/
theorem heuristic_worked_examples :
    2 ≤ countHits POSITIVE_MATCHERS (lowerChars exampleReply1) ∧
    countHits NEGATIVE_MATCHERS (lowerChars exampleReply1) = 0 ∧
    (heuristic_score exampleReply1).1 = "correct" ∧
    1 ≤ countHits NEGATIVE_MATCHERS (lowerChars exampleReply2) ∧
    countHits POSITIVE_MATCHERS (lowerChars exampleReply2) = 0 ∧
    (heuristic_score exampleReply2).1 = "incorrect" := by decide

/-- C5, counterexample: the empty reply has zero positive and zero
negative signal matches, yet `update` returns verdict "partial", not
"incorrect". -/
theorem zero_signal_counterexample :
    countHits POSITIVE_MATCHERS (lowerChars "") = 0 ∧
    countHits NEGATIVE_MATCHERS (lowerChars "") = 0 ∧
    (update initMeter "" false LlmOutcome.generateError).2.verdict = "partial" ∧
    ¬(update initMeter "" false LlmOutcome.generateError).2.verdict = "incorrect" := by
  decide

/-- C5, amended: a reply with zero signal matches (`pos = 0` and
`neg = 0`, the empty reply included) gets verdict "partial" from
`update`; verdict "incorrect" needs a negative match. -/
theorem zero_signal_verdict (reply : String) (m : UnderstandingMeter) (o : LlmOutcome)
    (hp : countHits POSITIVE_MATCHERS (lowerChars reply) = 0)
    (hn : countHits NEGATIVE_MATCHERS (lowerChars reply) = 0) :
    heuristic_score reply = ("partial", METER_STEP_PARTIAL) ∧
    (update m reply false o).2.verdict = "partial" := by
  have h : heuristic_score reply = ("partial", METER_STEP_PARTIAL) := by
    unfold heuristic_score
    rw [hp, hn]
    decide
  refine ⟨h, ?_⟩
  have hv : (update m reply false o).2.verdict = (heuristic_score reply).1 := rfl
  rw [hv, h]

/-- C5, witness: the amended claim applied to the empty reply. -/
theorem zero_signal_verdict_witness :
    countHits POSITIVE_MATCHERS (lowerChars "") = 0 ∧
    countHits NEGATIVE_MATCHERS (lowerChars "") = 0 ∧
    (update initMeter "" false LlmOutcome.generateError).2.verdict = "partial" :=
  ⟨by decide, by decide,
   (zero_signal_verdict "" initMeter LlmOutcome.generateError (by decide) (by decide)).2⟩

/-- the clamp keeps every score in [0, 100]. -/
theorem clampScore_bounds (x : Int) : 0 ≤ clampScore x ∧ clampScore x ≤ 100 := by
  unfold clampScore
  exact ⟨le_max_left 0 _, max_le (by norm_num) (min_le_left _ _)⟩

/-- scores stored by a run stay clamped, given a well-scored start. -/
theorem scoreInv_run (inputs : List (String × Bool × LlmOutcome)) :
    ∀ m : UnderstandingMeter,
      (0 ≤ m.score ∧ m.score ≤ 100) →
      (∀ r ∈ m.history, 0 ≤ r.score ∧ r.score ≤ 100) →
      (0 ≤ (runUpdates m inputs).score ∧ (runUpdates m inputs).score ≤ 100) ∧
      ∀ r ∈ (runUpdates m inputs).history, 0 ≤ r.score ∧ r.score ≤ 100 := by
  induction inputs with
  | nil => exact fun m h1 h2 => ⟨h1, h2⟩
  | cons i rest ih =>
      intro m h1 h2
      obtain ⟨reply, u, o⟩ := i
      simp only [runUpdates]
      refine ih _ (clampScore_bounds _) ?_
      intro r hr
      have hh : (update m reply u o).1.history = m.history ++ [updateRecord m reply u o] := rfl
      rw [hh] at hr
      rcases List.mem_append.mp hr with h | h
      · exact h2 r h
      · have : r = updateRecord m reply u o := List.mem_singleton.mp h
        rw [this]
        exact clampScore_bounds _

/-- C3: every update sets the score to `clamp(score + delta, 0, 100)`,
so after any sequence of updates the session score and the score field
of every history record lie in [0, 100]. -/
theorem score_clamped :
    (∀ (m : UnderstandingMeter) (reply : String) (u : Bool) (o : LlmOutcome),
       (update m reply u o).1.score =
         max 0 (min 100 (m.score + (update m reply u o).2.delta))) ∧
    (∀ (m : UnderstandingMeter) (reply : String) (u : Bool) (o : LlmOutcome),
       0 ≤ (update m reply u o).1.score ∧ (update m reply u o).1.score ≤ 100) ∧
    (∀ inputs : List (String × Bool × LlmOutcome),
       0 ≤ (runUpdates initMeter inputs).score ∧
       (runUpdates initMeter inputs).score ≤ 100) ∧
    (∀ inputs : List (String × Bool × LlmOutcome),
       ∀ r ∈ (runUpdates initMeter inputs).history, 0 ≤ r.score ∧ r.score ≤ 100) := by
  refine ⟨fun m reply u o => rfl, fun m reply u o => clampScore_bounds _, ?_, ?_⟩
  · intro inputs
    exact (scoreInv_run inputs initMeter (by decide) (by intro r hr; cases hr)).1
  · intro inputs
    exact (scoreInv_run inputs initMeter (by decide) (by intro r hr; cases hr)).2

/-- appending a record extends or resets the trailing incorrect run. -/
theorem trailingIncorrect_append (hist : List TurnRecord) (r : TurnRecord) :
    trailingIncorrect (hist ++ [r]) =
      if r.verdict = "incorrect" then trailingIncorrect hist + 1 else 0 := by
  unfold trailingIncorrect
  rw [List.reverse_append]
  by_cases h : r.verdict = "incorrect" <;> simp [h, List.takeWhile_cons]

/-- the wrong streak equals the trailing incorrect run, preserved by any
run of updates. -/
theorem streak_run (inputs : List (String × Bool × LlmOutcome)) :
    ∀ m : UnderstandingMeter,
      m.wrong_streak = (trailingIncorrect m.history : Int) →
      (runUpdates m inputs).wrong_streak =
        (trailingIncorrect (runUpdates m inputs).history : Int) := by
  induction inputs with
  | nil => exact fun m h => h
  | cons i rest ih =>
      intro m h
      obtain ⟨reply, u, o⟩ := i
      simp only [runUpdates]
      apply ih
      show nextStreak m.wrong_streak (update_verdict reply u o).1 =
        (trailingIncorrect (m.history ++ [updateRecord m reply u o]) : Int)
      rw [trailingIncorrect_append]
      unfold nextStreak
      have hv : (updateRecord m reply u o).verdict = (update_verdict reply u o).1 := rfl
      rw [hv]
      by_cases hc : (update_verdict reply u o).1 = "incorrect" <;> simp [hc, h]

/-- C4: an "incorrect" verdict increments the wrong streak by exactly 1,
a "correct" or "partial" verdict resets it to 0, and over any run the
streak equals the number of consecutive trailing "incorrect" records and
is never negative. -/
theorem wrong_streak_rule :
    (∀ (m : UnderstandingMeter) (reply : String) (u : Bool) (o : LlmOutcome),
       ((update m reply u o).2.verdict = "incorrect" →
          (update m reply u o).1.wrong_streak = m.wrong_streak + 1) ∧
       ((update m reply u o).2.verdict = "correct" ∨
          (update m reply u o).2.verdict = "partial" →
          (update m reply u o).1.wrong_streak = 0)) ∧
    (∀ inputs : List (String × Bool × LlmOutcome),
       (runUpdates initMeter inputs).wrong_streak =
         (trailingIncorrect (runUpdates initMeter inputs).history : Int) ∧
       0 ≤ (runUpdates initMeter inputs).wrong_streak) := by
  constructor
  · intro m reply u o
    constructor
    · intro h
      show nextStreak m.wrong_streak (update_verdict reply u o).1 = m.wrong_streak + 1
      unfold nextStreak
      have h' : (update_verdict reply u o).1 = "incorrect" := h
      rw [if_pos h']
    · intro h
      show nextStreak m.wrong_streak (update_verdict reply u o).1 = 0
      unfold nextStreak
      rcases h with h | h <;>
        · have h' : (update_verdict reply u o).1 = _ := h
          rw [if_neg (by rw [h']; decide)]
  · intro inputs
    have h := streak_run inputs initMeter rfl
    refine ⟨h, ?_⟩
    rw [h]
    omega

/-- C6 (amended): every exception of the LLM path — the generate call
raising, `json.loads` raising on malformed JSON, `int()` raising on a
non-integer score field — is caught and the heuristic path used
instead; a parsed object that merely lacks the "score" field is not an
exception: `data.get("score", 50)` defaults to 50 and the verdict is
"partial".  In every case `update` returns a well-formed record (one of
the three verdicts, the matching configured delta, a clamped score and
one of the five badges), never an error. -/
theorem llm_fallback :
    (∀ (m : UnderstandingMeter) (reply : String) (o : LlmOutcome),
       o = LlmOutcome.generateError ∨ o = LlmOutcome.jsonError ∨
         o = LlmOutcome.scoreNotInt →
       update m reply true o = update m reply false o) ∧
    (∀ (m : UnderstandingMeter) (reply : String),
       (update m reply true LlmOutcome.missingScore).2.verdict = "partial" ∧
       (update m reply true LlmOutcome.missingScore).2.delta = METER_STEP_PARTIAL) ∧
    (∀ (m : UnderstandingMeter) (reply : String) (u : Bool) (o : LlmOutcome),
       ((update m reply u o).2.verdict = "correct" ∨
        (update m reply u o).2.verdict = "partial" ∨
        (update m reply u o).2.verdict = "incorrect") ∧
       ((update m reply u o).2.delta = METER_STEP_CORRECT ∨
        (update m reply u o).2.delta = METER_STEP_PARTIAL ∨
        (update m reply u o).2.delta = METER_STEP_INCORRECT) ∧
       (0 ≤ (update m reply u o).2.score ∧ (update m reply u o).2.score ≤ 100) ∧
       ((update m reply u o).2.badge = "Expert" ∨
        (update m reply u o).2.badge = "Proficient" ∨
        (update m reply u o).2.badge = "Developing" ∨
        (update m reply u o).2.badge = "Beginner" ∨
        (update m reply u o).2.badge = "Needs Help")) := by
  refine ⟨?_, fun m reply => ⟨rfl, rfl⟩, ?_⟩
  · intro m reply o ho
    rcases ho with rfl | rfl | rfl <;> rfl
  · intro m reply u o
    have hv : (update m reply u o).2.verdict = (update_verdict reply u o).1 := rfl
    have hd : (update m reply u o).2.delta = (update_verdict reply u o).2 := rfl
    have hb : (update m reply u o).2.badge =
        badge (clampScore (m.score + (update_verdict reply u o).2)) := rfl
    refine ⟨?_, ?_, clampScore_bounds _, ?_⟩
    · rw [hv]
      rcases update_verdict_shape reply u o with h | h | h <;> rw [h] <;> simp
    · rw [hd]
      rcases update_verdict_shape reply u o with h | h | h <;> rw [h] <;> simp
    · rw [hb]
      exact badge_shape _

/-- C6, counterexample: on a reply whose heuristic verdict is
"incorrect", an LLM response parsing to JSON without a "score" field
does not use the heuristic path: `data.get("score", 50)` defaults to 50
and the verdict is "partial". -/
theorem llm_missing_field_counterexample :
    (update initMeter exampleReply2 true LlmOutcome.missingScore).2.verdict = "partial" ∧
    (heuristic_score exampleReply2).1 = "incorrect" ∧
    (update initMeter exampleReply2 true LlmOutcome.missingScore).2.verdict ≠
      (update initMeter exampleReply2 false LlmOutcome.missingScore).2.verdict := by
  decide

/-- the turn numbers `t+1, t+2, ..., t+n`. -/
def turnsFrom (t : Int) : Nat → List Int
  | 0 => []
  | n + 1 => (t + 1) :: turnsFrom (t + 1) n

/-- the list `turnsFrom` started at a natural number is a mapped `List.range'`. -/
theorem turnsFrom_eq (n : Nat) :
    ∀ t : Nat, turnsFrom (t : Int) n = (List.range' (t + 1) n).map (fun i : Nat => (i : Int)) := by
  induction n with
  | zero => intro t; rfl
  | succ n ih =>
      intro t
      rw [List.range'_succ, List.map_cons]
      show ((t : Int) + 1) :: turnsFrom ((t : Int) + 1) n = _
      have h1 : ((t : Int) + 1) = ((t + 1 : Nat) : Int) := by push_cast; ring
      rw [h1, ih (t + 1)]

/-- a run advances `turn_count` by its length and appends records whose
turn fields continue the count. -/
theorem runUpdates_history (inputs : List (String × Bool × LlmOutcome)) :
    ∀ m : UnderstandingMeter,
      (runUpdates m inputs).turn_count = m.turn_count + inputs.length ∧
      (runUpdates m inputs).history.length = m.history.length + inputs.length ∧
      (runUpdates m inputs).history.map TurnRecord.turn =
        m.history.map TurnRecord.turn ++ turnsFrom m.turn_count inputs.length := by
  induction inputs with
  | nil => intro m; simp [runUpdates, turnsFrom]
  | cons i rest ih =>
      intro m
      obtain ⟨reply, u, o⟩ := i
      simp only [runUpdates]
      obtain ⟨h1, h2, h3⟩ := ih (update m reply u o).1
      refine ⟨?_, ?_, ?_⟩
      · rw [h1]
        show m.turn_count + 1 + (rest.length : Int) = _
        simp only [List.length_cons]
        push_cast
        ring
      · have hh : (update m reply u o).1.history = m.history ++ [updateRecord m reply u o] := rfl
        rw [h2, hh]
        simp only [List.length_append, List.length_cons, List.length_nil]
        omega
      · rw [h3]
        show (m.history ++ [updateRecord m reply u o]).map TurnRecord.turn ++
            turnsFrom (m.turn_count + 1) rest.length = _
        rw [List.map_append, List.append_assoc]
        rfl

/-- C9: each update appends exactly one record (the one it returns) to
the end of the history and leaves earlier records untouched; after `n`
updates from a fresh meter the turn count is `n`, the history has `n`
records whose turn fields are `1, ..., n` in order, and `reset` returns
the meter to its initial state. -/
theorem history_append_rule :
    (∀ (m : UnderstandingMeter) (reply : String) (u : Bool) (o : LlmOutcome),
       (update m reply u o).1.history = m.history ++ [(update m reply u o).2]) ∧
    (∀ (m : UnderstandingMeter) (reply : String) (u : Bool) (o : LlmOutcome),
       (update m reply u o).1.history.getLast? = some (update m reply u o).2) ∧
    (∀ inputs : List (String × Bool × LlmOutcome),
       (runUpdates initMeter inputs).turn_count = (inputs.length : Int) ∧
       (runUpdates initMeter inputs).history.length = inputs.length ∧
       (runUpdates initMeter inputs).history.map TurnRecord.turn =
         (List.range' 1 inputs.length).map (fun i : Nat => (i : Int))) ∧
    (∀ m : UnderstandingMeter, reset m = initMeter) := by
  refine ⟨fun m reply u o => rfl, ?_, ?_, fun m => rfl⟩
  · intro m reply u o
    have h : (update m reply u o).1.history = m.history ++ [(update m reply u o).2] := rfl
    rw [h]
    simp
  · intro inputs
    obtain ⟨h1, h2, h3⟩ := runUpdates_history inputs initMeter
    refine ⟨?_, ?_, ?_⟩
    · rw [h1]
      show (0 : Int) + (inputs.length : Int) = _
      rw [zero_add]
    · rw [h2]
      show 0 + inputs.length = _
      rw [Nat.zero_add]
    · rw [h3]
      show [] ++ turnsFrom ((0 : Nat) : Int) inputs.length = _
      rw [List.nil_append, turnsFrom_eq]

/-- a session starting at a given score, with no history. -/
def meterAt (s : Int) : UnderstandingMeter :=
  { score := s, turn_count := 0, wrong_streak := 0, history := [] }

/-- C10: the returned record's delta is the raw configured step for its
verdict; whenever the clamp binds at a boundary the realized score
change differs from delta — concretely, a "correct" verdict at score 95
returns delta 15 while the score only rises to 100, and an "incorrect"
verdict at score 0 returns delta -5 while the score stays 0. -/
theorem delta_raw_step :
    (∀ (m : UnderstandingMeter) (reply : String) (u : Bool) (o : LlmOutcome),
       ((update m reply u o).2.verdict = "correct" →
          (update m reply u o).2.delta = METER_STEP_CORRECT) ∧
       ((update m reply u o).2.verdict = "partial" →
          (update m reply u o).2.delta = METER_STEP_PARTIAL) ∧
       ((update m reply u o).2.verdict = "incorrect" →
          (update m reply u o).2.delta = METER_STEP_INCORRECT) ∧
       (100 < m.score + (update m reply u o).2.delta →
          (update m reply u o).2.score - m.score ≠ (update m reply u o).2.delta) ∧
       (m.score + (update m reply u o).2.delta < 0 →
          (update m reply u o).2.score - m.score ≠ (update m reply u o).2.delta)) ∧
    (update (meterAt 95) "yes, the formula" false LlmOutcome.generateError).2.verdict =
        "correct" ∧
    (update (meterAt 95) "yes, the formula" false LlmOutcome.generateError).2.delta = 15 ∧
    (update (meterAt 95) "yes, the formula" false LlmOutcome.generateError).2.score = 100 ∧
    (update (meterAt 0) exampleReply2 false LlmOutcome.generateError).2.verdict =
        "incorrect" ∧
    (update (meterAt 0) exampleReply2 false LlmOutcome.generateError).2.delta = -5 ∧
    (update (meterAt 0) exampleReply2 false LlmOutcome.generateError).2.score = 0 := by
  refine ⟨?_, by decide, by decide, by decide, by decide, by decide, by decide⟩
  intro m reply u o
  have hv : (update m reply u o).2.verdict = (update_verdict reply u o).1 := rfl
  have hd : (update m reply u o).2.delta = (update_verdict reply u o).2 := rfl
  have hs : (update m reply u o).2.score =
      clampScore (m.score + (update_verdict reply u o).2) := rfl
  rcases update_verdict_shape reply u o with hq | hq | hq <;>
    · rw [hv, hd, hs, hq]
      dsimp only
      unfold clampScore METER_STEP_CORRECT METER_STEP_PARTIAL METER_STEP_INCORRECT
      refine ⟨?_, ?_, ?_, ?_, ?_⟩ <;>
        first
          | (intro h; rfl)
          | (intro h; exact absurd h (by decide))
          | (intro h; omega)

end VaniVision
